import Mathlib

/-!
Verification of the todo-list CRUD service (`src/handlers.rs`, `src/models.rs`,
`src/errors.rs`, `src/main.rs`) against its natural-language specification.

The embedding is shallow:
* A `Uuid` (Rust `uuid::Uuid`, a 128-bit value) is a `Nat` below `2 ^ 128`.
  `uuidToString` is `Uuid::to_string` (the hyphenated lowercase-hex `Display`
  form), `uuidSimple` is the `uuid::serde::simple` wire form used by the
  `Todo` serializer, and `parseUuid` is `Uuid::parse_str` (accepting the
  simple, hyphenated, braced and urn formats, upper- or lowercase hex).
* The SQLite `todos` table is a `List Row`; SQL statements become list
  operations.  `sqlx` driver failures other than the modelled PRIMARY KEY
  violation are not represented (the handlers forward them unchanged).
* `DateTime<Utc>` timestamps are `Int`; `Utc::now()` becomes an explicit
  parameter, as does the output of `Uuid::new_v4()`.
* Rust `Result<_, AppError>` becomes `Except AppError _`; HTTP status codes
  are `Nat`.
-/

namespace TodoApi

/-! ### UUID string encodings (`uuid` crate) -/

/-- One hex nibble rendered as a lowercase hex character (`0`-`9`, `a`-`f`);
this is how the `uuid` crate renders both its simple and hyphenated forms. -/
def toHexDigit (d : Nat) : Char :=
  if d < 10 then Char.ofNat (48 + d) else Char.ofNat (87 + d)

/-- Value of a hex character; `Uuid::parse_str` accepts both cases. -/
def hexVal (c : Char) : Option Nat :=
  if 48 ≤ c.toNat ∧ c.toNat ≤ 57 then some (c.toNat - 48)
  else if 97 ≤ c.toNat ∧ c.toNat ≤ 102 then some (c.toNat - 87)
  else if 65 ≤ c.toNat ∧ c.toNat ≤ 70 then some (c.toNat - 55)
  else none

/-- The `k` low nibbles of `u`, most significant first. -/
def nibblesBEtop : Nat → Nat → List Nat
  | 0, _ => []
  | k + 1, u => (u / 16 ^ k % 16) :: nibblesBEtop k u

/-- `k` lowercase hex characters encoding the `k` low nibbles of `u`. -/
def hexChars (k u : Nat) : List Char :=
  (nibblesBEtop k u).map toHexDigit

/-- Consume exactly `k` hex characters, extending the accumulator `acc`. -/
def readHex : Nat → Nat → List Char → Option (Nat × List Char)
  | 0, acc, cs => some (acc, cs)
  | k + 1, acc, cs =>
    match cs with
    | [] => none
    | c :: cs' =>
      match hexVal c with
      | some d => readHex k (acc * 16 + d) cs'
      | none => none

/-- Consume one mandatory `-` group separator. -/
def expectDash : List Char → Option (List Char)
  | c :: cs => if c = '-' then some cs else none
  | [] => none

/-- Parse the 8-4-4-4-12 hyphenated UUID character form. -/
def parseHyph (cs : List Char) : Option Nat :=
  (readHex 8 0 cs).bind fun g1 =>
  (expectDash g1.2).bind fun r1 =>
  (readHex 4 g1.1 r1).bind fun g2 =>
  (expectDash g2.2).bind fun r2 =>
  (readHex 4 g2.1 r2).bind fun g3 =>
  (expectDash g3.2).bind fun r3 =>
  (readHex 4 g3.1 r3).bind fun g4 =>
  (expectDash g4.2).bind fun r4 =>
  (readHex 12 g4.1 r4).bind fun g5 =>
  if g5.2.isEmpty then some g5.1 else none

/-- `Uuid::parse_str`: dispatch on length to the simple (32), hyphenated (36),
braced (38) and urn (45) formats, rejecting everything else. -/
def parseUuid (s : String) : Option Nat :=
  let cs := s.data
  if cs.length = 32 then
    match readHex 32 0 cs with
    | some (v, []) => some v
    | _ => none
  else if cs.length = 36 then parseHyph cs
  else if cs.length = 38 then
    match cs with
    | c :: rest =>
      if c = Char.ofNat 123 ∧ rest.getLast? = some (Char.ofNat 125) then
        parseHyph rest.dropLast
      else none
    | [] => none
  else if cs.length = 45 then
    if cs.take 9 = "urn:uuid:".data then parseHyph (cs.drop 9) else none
  else none

/-- The hyphenated character sequence `Uuid::to_string` produces:
five lowercase-hex groups of 8, 4, 4, 4 and 12 digits joined by `-`. -/
def uuidHyphChars (u : Nat) : List Char :=
  hexChars 8 (u / 16 ^ 24) ++ '-' :: hexChars 4 (u / 16 ^ 20) ++
    '-' :: hexChars 4 (u / 16 ^ 16) ++ '-' :: hexChars 4 (u / 16 ^ 12) ++
      '-' :: hexChars 12 u

/-- `Uuid::to_string` (the `Display` form): hyphenated lowercase hex.  This is
the encoding every handler passes to the database (`id.to_string()`). -/
def uuidToString (u : Nat) : String :=
  ⟨uuidHyphChars u⟩

/-- `uuid::serde::simple`: the 32-character lowercase-hex no-separator wire
form used when serializing `Todo.id` to JSON (`#[serde(with = "uuid::serde::simple")]`). -/
def uuidSimple (u : Nat) : String :=
  ⟨hexChars 32 u⟩

/-! ### Round-trip facts about the encodings -/

theorem hexVal_toHexDigit : ∀ d < 16, hexVal (toHexDigit d) = some d := by
  decide

theorem nibblesBEtop_length (k u : Nat) : (nibblesBEtop k u).length = k := by
  induction k generalizing u with
  | zero => rfl
  | succ k ih => simp [nibblesBEtop, ih]

theorem nibblesBEtop_lt (k u : Nat) : ∀ d ∈ nibblesBEtop k u, d < 16 := by
  induction k generalizing u with
  | zero => intro d hd; simp [nibblesBEtop] at hd
  | succ k ih =>
    intro d hd
    simp only [nibblesBEtop, List.mem_cons] at hd
    rcases hd with h | h
    · exact h ▸ Nat.mod_lt _ (by omega)
    · exact ih u d h

theorem hexChars_length (k u : Nat) : (hexChars k u).length = k := by
  simp [hexChars, nibblesBEtop_length]

theorem readHex_hexChars (k : Nat) :
    ∀ (a u : Nat) (rest : List Char),
      readHex k a (hexChars k u ++ rest) = some (a * 16 ^ k + u % 16 ^ k, rest) := by
  induction k with
  | zero => intro a u rest; simp [hexChars, nibblesBEtop, readHex, Nat.mod_one]
  | succ k ih =>
    intro a u rest
    have hd : u / 16 ^ k % 16 < 16 := Nat.mod_lt _ (by omega)
    simp only [hexChars, nibblesBEtop, List.map_cons, List.cons_append, readHex,
      hexVal_toHexDigit _ hd]
    rw [show ((nibblesBEtop k u).map toHexDigit) = hexChars k u from rfl, ih]
    congr 2
    have hmul : u % (16 ^ k * 16) = u % 16 ^ k + 16 ^ k * (u / 16 ^ k % 16) :=
      Nat.mod_mul
    have hpow : (16 : Nat) ^ (k + 1) = 16 ^ k * 16 := by ring
    rw [hpow, hmul]
    ring

theorem expectDash_dash (cs : List Char) : expectDash ('-' :: cs) = some cs := by
  simp [expectDash]

theorem uuidHyphChars_assoc (u : Nat) :
    uuidHyphChars u =
      hexChars 8 (u / 16 ^ 24) ++
        ('-' :: (hexChars 4 (u / 16 ^ 20) ++
          ('-' :: (hexChars 4 (u / 16 ^ 16) ++
            ('-' :: (hexChars 4 (u / 16 ^ 12) ++
              ('-' :: (hexChars 12 u ++ ([] : List Char))))))))) := by
  simp [uuidHyphChars]

theorem parseHyph_uuidHyphChars (u : Nat) (hu : u < 2 ^ 128) :
    parseHyph (uuidHyphChars u) = some u := by
  have h16 : (2 : Nat) ^ 128 = 16 ^ 32 := by norm_num
  rw [h16] at hu
  rw [uuidHyphChars_assoc]
  simp only [parseHyph, readHex_hexChars, Option.some_bind, expectDash_dash,
    List.isEmpty_nil, if_pos rfl]
  norm_num
  omega

theorem uuidToString_data (u : Nat) : (uuidToString u).data = uuidHyphChars u := rfl

theorem uuidHyphChars_length (u : Nat) : (uuidHyphChars u).length = 36 := by
  simp [uuidHyphChars, hexChars_length]

theorem parseUuid_uuidToString (u : Nat) (hu : u < 2 ^ 128) :
    parseUuid (uuidToString u) = some u := by
  have h36 := uuidHyphChars_length u
  simp only [parseUuid, uuidToString_data, h36]
  norm_num
  exact parseHyph_uuidHyphChars u hu

theorem uuidToString_injOn {u v : Nat} (hu : u < 2 ^ 128) (hv : v < 2 ^ 128)
    (h : uuidToString u = uuidToString v) : u = v := by
  have h1 := parseUuid_uuidToString u hu
  have h2 := parseUuid_uuidToString v hv
  rw [h] at h1
  exact Option.some_injective _ (h1.symm.trans h2)

/-! ### Data model (`models.rs`, schema in `main.rs`) -/

/-- One row of the `todos` table.  Per the schema in `main.rs` the `id` column
is `TEXT`; timestamps are modelled as `Int`. -/
structure Row where
  id : String
  title : String
  description : Option String
  completed : Bool
  created_at : Int
  updated_at : Int
deriving DecidableEq, Repr

/-- The `todos` table. -/
abbrev Store := List Row

/-- The `Todo` entity of `models.rs` (`id` is a `Uuid`, i.e. a value below
`2 ^ 128`). -/
structure Todo where
  id : Nat
  title : String
  description : Option String
  completed : Bool
  created_at : Int
  updated_at : Int
deriving DecidableEq, Repr

/-- The JSON rendering of `Todo.id`: `#[serde(with = "uuid::serde::simple")]`
picks the 32-character simple form for the wire. -/
def todoWireId (t : Todo) : String :=
  uuidSimple t.id

/-- `CreateTodo` request body (`models.rs`). -/
structure CreateTodo where
  title : String
  description : Option String
deriving DecidableEq, Repr

/-- `UpdateTodo` request body (`models.rs`); `serde` maps both an absent field
and an explicit `null` to `none`. -/
structure UpdateTodo where
  title : Option String
  description : Option String
  completed : Option Bool
deriving DecidableEq, Repr

/-- `AppError` (`errors.rs`).  Validation errors carry the
(field, message) pairs produced by the `validator` derive. -/
inductive AppError where
  | UuidParseError
  | ValidationError (errors : List (String × String))
  | SqlxError
  | NotFound
  | InternalServerError
deriving DecidableEq, Repr

/-- The `Display` rendering of `validator::ValidationErrors` (one
`field: message` item per violation), as interpolated by `errors.rs`. -/
def renderValidationErrors (errors : List (String × String)) : String :=
  String.intercalate ", " (errors.map (fun fm => fm.1 ++ ": " ++ fm.2))

/-- `AppError::into_response` (`errors.rs`): status code and body message. -/
def into_response : AppError → Nat × String
  | .ValidationError errors =>
      (400, "Input validation failed: " ++ renderValidationErrors errors)
  | .UuidParseError => (500, "Error processing identifier.")
  | .SqlxError => (500, "An internal database error occurred.")
  | .NotFound => (404, "The requested item was not found.")
  | .InternalServerError => (500, "An unexpected error occurred.")

/-- `CreateTodo::validate`: the `validator` derive checks
`length(min = 1)` on `title` (character count, no trimming). -/
def validateCreate (p : CreateTodo) : Except (List (String × String)) Unit :=
  if 1 ≤ p.title.length then .ok ()
  else .error [("title", "Title cannot be empty")]

/-- `UpdateTodo::validate`: `length(min = 1)` on `title`, skipped when the
field is absent. -/
def validateUpdate (p : UpdateTodo) : Except (List (String × String)) Unit :=
  match p.title with
  | some t =>
      if 1 ≤ t.length then .ok ()
      else .error [("title", "Title cannot be empty")]
  | none => .ok ()

/-! ### Handlers (`handlers.rs`)

Each handler takes the table state plus the values the Rust code obtains from
its environment (`Uuid::new_v4()`, `Utc::now()`) and returns the new table
state (for mutating handlers) and an `Except AppError` result carrying the
HTTP status code of the success path. -/

/-- `create_todo`: validate, generate an id, `INSERT ... RETURNING`, convert
the returned row (`Uuid::parse_str(&record.id)?`).  A PRIMARY KEY collision
surfaces as a `sqlx::Error`. -/
def create_todo (store : Store) (payload : CreateTodo) (todo_id : Nat)
    (now : Int) : Store × Except AppError (Nat × Todo) :=
  match validateCreate payload with
  | .error e => (store, .error (.ValidationError e))
  | .ok _ =>
    let todo_id_string := uuidToString todo_id
    let row : Row :=
      { id := todo_id_string, title := payload.title,
        description := payload.description, completed := false,
        created_at := now, updated_at := now }
    if store.any (fun r => r.id == todo_id_string) then
      (store, .error .SqlxError)
    else
      let store' := store ++ [row]
      match parseUuid row.id with
      | some uid =>
          (store', .ok (201,
            { id := uid, title := row.title, description := row.description,
              completed := row.completed, created_at := row.created_at,
              updated_at := row.updated_at }))
      | none => (store', .error .UuidParseError)

/-- Convert fetched rows to `Todo`s in order, aborting on the first row whose
`id` column fails `Uuid::parse_str` (the `?` inside the loop of `get_todos`). -/
def rowsToTodos : List Row → Except AppError (List Todo)
  | [] => .ok []
  | r :: rs =>
    match parseUuid r.id with
    | none => .error .UuidParseError
    | some uid =>
      match rowsToTodos rs with
      | .error e => .error e
      | .ok ts =>
          .ok ({ id := uid, title := r.title, description := r.description,
                 completed := r.completed, created_at := r.created_at,
                 updated_at := r.updated_at } :: ts)

/-- `get_todos`: `SELECT ... ORDER BY created_at DESC`, then the conversion
loop.  Success is HTTP 200 with the list. -/
def get_todos (store : Store) : Except AppError (List Todo) :=
  let records :=
    List.insertionSort (fun a b : Row => b.created_at ≤ a.created_at) store
  rowsToTodos records

/-- `get_todo_by_id`: `SELECT ... WHERE id = $1` with the id rendered by
`id.to_string()`; absent row is `AppError::NotFound`. -/
def get_todo_by_id (store : Store) (id : Nat) :
    Except AppError (Nat × Todo) :=
  let id_as_string := uuidToString id
  match store.find? (fun r => r.id == id_as_string) with
  | some record =>
    match parseUuid record.id with
    | some uid =>
        .ok (200,
          { id := uid, title := record.title,
            description := record.description, completed := record.completed,
            created_at := record.created_at, updated_at := record.updated_at })
    | none => .error .UuidParseError
  | none => .error .NotFound

/-- `update_todo`: validate, fetch the current row (404 if absent), merge
(`title`/`completed` fall back to the current values, `description` is taken
from the payload unconditionally), then `UPDATE ... RETURNING` with a fresh
`updated_at`. -/
def update_todo (store : Store) (id : Nat) (payload : UpdateTodo)
    (now : Int) : Store × Except AppError (Nat × Todo) :=
  match validateUpdate payload with
  | .error e => (store, .error (.ValidationError e))
  | .ok _ =>
    let id_as_string := uuidToString id
    match store.find? (fun r => r.id == id_as_string) with
    | none => (store, .error .NotFound)
    | some cur =>
      let final_title := payload.title.getD cur.title
      let final_description := payload.description
      let final_completed := payload.completed.getD cur.completed
      let updated_at_ts := now
      let store' := store.map (fun r =>
        if r.id == id_as_string then
          { r with title := final_title, description := final_description,
                   completed := final_completed, updated_at := updated_at_ts }
        else r)
      let newRow : Row :=
        { cur with title := final_title, description := final_description,
                   completed := final_completed, updated_at := updated_at_ts }
      match parseUuid newRow.id with
      | some uid =>
          (store', .ok (200,
            { id := uid, title := newRow.title,
              description := newRow.description, completed := newRow.completed,
              created_at := newRow.created_at,
              updated_at := newRow.updated_at }))
      | none => (store', .error .UuidParseError)

/-- `delete_todo`: `DELETE ... WHERE id = $1`, then translate
`rows_affected() == 0` to `AppError::NotFound`, otherwise HTTP 204. -/
def delete_todo (store : Store) (id : Nat) : Store × Except AppError Nat :=
  let id_as_string := uuidToString id
  let store' := store.filter (fun r => !(r.id == id_as_string))
  let rows_affected := store.countP (fun r => r.id == id_as_string)
  if rows_affected = 0 then (store', .error .NotFound)
  else (store', .ok 204)

/-! ### Route layer for `/todos/{id}` (`main.rs` + axum)

The three id-taking handlers declare `Path(id): Path<Uuid>`.  Modelled from
axum (a dependency, not repository code): when the path segment fails to
deserialize as a `Uuid`, the `Path` extractor rejects the request with
`PathRejection::FailedToDeserializePathParams`, i.e. HTTP 400 Bad Request,
and the handler body never runs. -/

/-- Status of `GET /todos/{id}` for a raw path segment. -/
def routeGetTodoById (store : Store) (seg : String) : Nat :=
  match parseUuid seg with
  | none => 400
  | some id =>
    match get_todo_by_id store id with
    | .ok (st, _) => st
    | .error e => (into_response e).1

/-- Status of `PUT /todos/{id}` for a raw path segment. -/
def routeUpdateTodo (store : Store) (seg : String) (payload : UpdateTodo)
    (now : Int) : Nat :=
  match parseUuid seg with
  | none => 400
  | some id =>
    match (update_todo store id payload now).2 with
    | .ok (st, _) => st
    | .error e => (into_response e).1

/-- Status of `DELETE /todos/{id}` for a raw path segment. -/
def routeDeleteTodo (store : Store) (seg : String) : Nat :=
  match parseUuid seg with
  | none => 400
  | some id =>
    match (delete_todo store id).2 with
    | .ok st => st
    | .error e => (into_response e).1

/-! ### Mutation traces (used to state the Create/Get round trip) -/

/-- A state-mutating request issued to the service. -/
inductive OpR where
  | create (p : CreateTodo) (fid : Nat) (now : Int)
  | update (uid : Nat) (p : UpdateTodo) (now : Int)
  | delete (uid : Nat)

/-- Table state after executing one request. -/
def applyOp (s : Store) : OpR → Store
  | .create p fid now => (create_todo s p fid now).1
  | .update uid p now => (update_todo s uid p now).1
  | .delete uid => (delete_todo s uid).1

/-- Table state after a sequence of requests. -/
def applyTrace (s : Store) (ops : List OpR) : Store :=
  ops.foldl applyOp s

/-- The request targets the row whose `id` column holds `uuidToString id`. -/
def touches (id : Nat) : OpR → Prop
  | .create _ fid _ => uuidToString fid = uuidToString id
  | .update uid _ _ => uuidToString uid = uuidToString id
  | .delete uid => uuidToString uid = uuidToString id

instance (id : Nat) (op : OpR) : Decidable (touches id op) := by
  cases op <;> simp only [touches] <;> infer_instance

/-! ### Helper lemmas about the table operations -/

/-- Lowercase hex digit test, used to state the wire-encoding claim. -/
def isLowerHexDigit (c : Char) : Bool :=
  (48 ≤ c.toNat && c.toNat ≤ 57) || (97 ≤ c.toNat && c.toNat ≤ 102)

theorem isLowerHexDigit_toHexDigit : ∀ d < 16, isLowerHexDigit (toHexDigit d) = true := by
  decide

theorem hexChars_isLowerHex (k u : Nat) :
    ∀ c ∈ hexChars k u, isLowerHexDigit c = true := by
  intro c hc
  simp only [hexChars, List.mem_map] at hc
  obtain ⟨d, hd, rfl⟩ := hc
  exact isLowerHexDigit_toHexDigit d (nibblesBEtop_lt k u d hd)

theorem find?_map_eq (s : List Row) (p : Row → Bool) (f : Row → Row)
    (hp : ∀ r, p (f r) = p r) : (s.map f).find? p = (s.find? p).map f := by
  induction s with
  | nil => rfl
  | cons r rs ih =>
    by_cases h : p r = true
    · rw [List.map_cons, List.find?_cons_of_pos _ ((hp r).trans h),
        List.find?_cons_of_pos _ h]
      rfl
    · rw [List.map_cons,
        List.find?_cons_of_neg _ (by rw [hp r]; exact h),
        List.find?_cons_of_neg _ h, ih]

theorem find?_filter_pres (s : List Row) (p q : Row → Bool)
    (h : ∀ r, p r = true → q r = true) :
    (s.filter q).find? p = s.find? p := by
  induction s with
  | nil => rfl
  | cons r rs ih =>
    by_cases hq : q r = true
    · rw [List.filter_cons_of_pos hq]
      by_cases hp : p r = true
      · rw [List.find?_cons_of_pos _ hp, List.find?_cons_of_pos _ hp]
      · rw [List.find?_cons_of_neg _ hp, List.find?_cons_of_neg _ hp, ih]
    · have hp : ¬ p r = true := fun hpr => hq (h r hpr)
      rw [List.filter_cons_of_neg (by simpa using hq),
        List.find?_cons_of_neg _ hp, ih]

theorem countP_filter_not (s : List Row) (p : Row → Bool) :
    (s.filter (fun r => !(p r))).countP p = 0 := by
  simp [List.countP_filter]

/-- Characterization of `create_todo` on the success path. -/
theorem create_todo_success (store : Store) (p : CreateTodo) (todo_id : Nat)
    (now : Int) (hid : todo_id < 2 ^ 128)
    (hv : validateCreate p = .ok ())
    (hfresh : store.any (fun r => r.id == uuidToString todo_id) = false) :
    create_todo store p todo_id now =
      (store ++ [{ id := uuidToString todo_id, title := p.title,
                   description := p.description, completed := false,
                   created_at := now, updated_at := now }],
       .ok (201, { id := todo_id, title := p.title,
                   description := p.description, completed := false,
                   created_at := now, updated_at := now })) := by
  simp only [create_todo, hv, hfresh, Bool.false_eq_true, if_false,
    parseUuid_uuidToString todo_id hid]

/-- Inversion of `create_todo`: a success tells us validation passed, the id
was fresh, and exactly what was appended and returned. -/
theorem create_todo_success_inv (store : Store) (p : CreateTodo)
    (todo_id : Nat) (now : Int) (s' : Store) (st : Nat) (t : Todo)
    (hid : todo_id < 2 ^ 128)
    (h : create_todo store p todo_id now = (s', .ok (st, t))) :
    validateCreate p = .ok () ∧
    store.any (fun r => r.id == uuidToString todo_id) = false ∧
    s' = store ++ [{ id := uuidToString todo_id, title := p.title,
                     description := p.description, completed := false,
                     created_at := now, updated_at := now }] ∧
    st = 201 ∧
    t = { id := todo_id, title := p.title, description := p.description,
          completed := false, created_at := now, updated_at := now } := by
  cases hv : validateCreate p with
  | error e => simp [create_todo, hv] at h
  | ok u =>
    cases u
    cases hfresh : store.any (fun r => r.id == uuidToString todo_id) with
    | true => simp [create_todo, hv, hfresh] at h
    | false =>
      rw [create_todo_success store p todo_id now hid hv hfresh] at h
      injection h with h1 h2
      injection h2 with h2
      injection h2 with h3 h4
      exact ⟨rfl, rfl, h1.symm, h3.symm, h4.symm⟩

/-- Characterization of `update_todo` on the success path. -/
theorem update_todo_success (store : Store) (id : Nat) (p : UpdateTodo)
    (now : Int) (cur : Row) (hid : id < 2 ^ 128)
    (hv : validateUpdate p = .ok ())
    (hf : store.find? (fun r => r.id == uuidToString id) = some cur) :
    update_todo store id p now =
      (store.map (fun r =>
        if r.id == uuidToString id then
          { r with title := p.title.getD cur.title,
                   description := p.description,
                   completed := p.completed.getD cur.completed,
                   updated_at := now }
        else r),
       .ok (200, { id := id, title := p.title.getD cur.title,
                   description := p.description,
                   completed := p.completed.getD cur.completed,
                   created_at := cur.created_at, updated_at := now })) := by
  have hbeq := List.find?_some hf
  have hcurid : cur.id = uuidToString id := eq_of_beq hbeq
  simp only [update_todo, hv, hf, hcurid, parseUuid_uuidToString id hid]

/-- Inversion of `update_todo` given the current row: success pins down the
returned todo and the new table state. -/
theorem update_todo_success_inv (store : Store) (id : Nat) (p : UpdateTodo)
    (now : Int) (cur : Row) (s' : Store) (st : Nat) (t : Todo)
    (hid : id < 2 ^ 128)
    (hf : store.find? (fun r => r.id == uuidToString id) = some cur)
    (h : update_todo store id p now = (s', .ok (st, t))) :
    validateUpdate p = .ok () ∧
    s' = store.map (fun r =>
      if r.id == uuidToString id then
        { r with title := p.title.getD cur.title,
                 description := p.description,
                 completed := p.completed.getD cur.completed,
                 updated_at := now }
      else r) ∧
    st = 200 ∧
    t = { id := id, title := p.title.getD cur.title,
          description := p.description,
          completed := p.completed.getD cur.completed,
          created_at := cur.created_at, updated_at := now } := by
  cases hv : validateUpdate p with
  | error e => simp [update_todo, hv] at h
  | ok u =>
    cases u
    rw [update_todo_success store id p now cur hid hv hf] at h
    injection h with h1 h2
    injection h2 with h2
    injection h2 with h3 h4
    exact ⟨rfl, h1.symm, h3.symm, h4.symm⟩

/-- `create_todo` either leaves the table unchanged or appends the one new
row. -/
theorem create_todo_state (s : Store) (pc : CreateTodo) (fid : Nat)
    (now : Int) :
    (create_todo s pc fid now).1 = s ∨
    (create_todo s pc fid now).1 =
      s ++ [{ id := uuidToString fid, title := pc.title,
              description := pc.description, completed := false,
              created_at := now, updated_at := now }] := by
  unfold create_todo
  split
  · exact Or.inl rfl
  · dsimp only
    split
    · exact Or.inl rfl
    · split <;> exact Or.inr rfl

/-- `update_todo` either leaves the table unchanged or maps an id-preserving
function over it that fixes every row whose id differs from the target. -/
theorem update_todo_state (s : Store) (uid : Nat) (pc : UpdateTodo)
    (now : Int) :
    (update_todo s uid pc now).1 = s ∨
    ∃ f : Row → Row, (∀ r, (f r).id = r.id) ∧
      (∀ r, (r.id == uuidToString uid) = false → f r = r) ∧
      (update_todo s uid pc now).1 = s.map f := by
  unfold update_todo
  split
  · exact Or.inl rfl
  · try dsimp only
    split
    · exact Or.inl rfl
    · try dsimp only
      split <;>
      · refine Or.inr ⟨_, ?_, ?_, rfl⟩
        · intro r
          by_cases h : (r.id == uuidToString uid) = true <;> simp [h]
        · intro r h
          simp [h]

/-- The table component of `delete_todo` is always the filtered table. -/
theorem delete_todo_state (s : Store) (uid : Nat) :
    (delete_todo s uid).1 =
      s.filter (fun r => !(r.id == uuidToString uid)) := by
  unfold delete_todo
  dsimp only
  split <;> rfl

/-- A request that does not touch `id` leaves the lookup of `id` unchanged. -/
theorem applyOp_find?_pres (s : Store) (id : Nat) (op : OpR)
    (h : ¬ touches id op) :
    (applyOp s op).find? (fun r => r.id == uuidToString id) =
      s.find? (fun r => r.id == uuidToString id) := by
  cases op with
  | create pc fid now =>
    simp only [touches] at h
    rcases create_todo_state s pc fid now with heq | heq
    · rw [applyOp, heq]
    · rw [applyOp, heq, List.find?_append]
      have hone : List.find? (fun r => r.id == uuidToString id)
          [({ id := uuidToString fid, title := pc.title,
              description := pc.description, completed := false,
              created_at := now, updated_at := now } : Row)] = none := by
        simp [List.find?, beq_eq_false_iff_ne.mpr h]
      rw [hone]
      cases s.find? (fun r => r.id == uuidToString id) <;> rfl
  | update uid pc now =>
    simp only [touches] at h
    rcases update_todo_state s uid pc now with heq | ⟨f, hidp, hfix, heq⟩
    · rw [applyOp, heq]
    · rw [applyOp, heq,
        find?_map_eq s _ f (fun r => by simp only [hidp r])]
      cases hfind : s.find? (fun r => r.id == uuidToString id) with
      | none => rfl
      | some r0 =>
        have hb0 := List.find?_some hfind
        have hr0 : r0.id = uuidToString id := eq_of_beq hb0
        have hne : (r0.id == uuidToString uid) = false := by
          refine beq_eq_false_iff_ne.mpr ?_
          rw [hr0]
          exact fun hh => h (hh.symm)
        rw [Option.map_some', hfix r0 hne]
  | delete uid =>
    simp only [touches] at h
    rw [applyOp, delete_todo_state]
    refine find?_filter_pres s _ _ ?_
    intro r hr
    have hrid : r.id = uuidToString id := eq_of_beq hr
    have hne : (r.id == uuidToString uid) = false := by
      refine beq_eq_false_iff_ne.mpr ?_
      rw [hrid]
      exact fun hh => h (hh.symm)
    simp [hne]

/-- A trace of requests none of which touches `id` leaves the lookup of `id`
unchanged. -/
theorem applyTrace_find?_pres (ops : List OpR) : ∀ (s : Store) (id : Nat),
    (∀ op ∈ ops, ¬ touches id op) →
    (applyTrace s ops).find? (fun r => r.id == uuidToString id) =
      s.find? (fun r => r.id == uuidToString id) := by
  induction ops with
  | nil => intro s id _; rfl
  | cons op ops ih =>
    intro s id h
    show (applyTrace (applyOp s op) ops).find? _ = _
    rw [ih (applyOp s op) id (fun o ho => h o (List.mem_cons_of_mem _ ho)),
      applyOp_find?_pres s id op (h op (List.mem_cons_self _ _))]

/-- If any fetched row has an unparseable id column, the conversion loop of
`get_todos` aborts with `UuidParseError`. -/
theorem rowsToTodos_error (l : List Row)
    (hex : ∃ r ∈ l, parseUuid r.id = none) :
    rowsToTodos l = .error .UuidParseError := by
  induction l with
  | nil => rcases hex with ⟨r, hr, _⟩; simp at hr
  | cons r rs ih =>
    rcases hex with ⟨r0, hr0, hp0⟩
    rcases List.mem_cons.mp hr0 with rfl | hmem
    · simp only [rowsToTodos, hp0]
    · cases hp : parseUuid r.id with
      | none => simp only [rowsToTodos, hp]
      | some uid =>
        have hrec := ih ⟨r0, hmem, hp0⟩
        simp only [rowsToTodos, hp, hrec]

/-- The row updater used by `update_todo` never changes which rows match the
target key. -/
theorem updater_pres_key (key : String) (tt : String) (dd : Option String)
    (cc : Bool) (ts : Int) (r : Row) :
    ((if r.id == key then
        ({ r with title := tt, description := dd, completed := cc,
                  updated_at := ts } : Row)
      else r).id == key) = (r.id == key) := by
  by_cases h : (r.id == key) = true <;> simp [h]

/-! ### Claims -/

/-- Claim C1: for every Update on an existing id that passes validation, the
returned and the persisted row's title equals the request title when present
and the previous title when absent, completed likewise, and description
always equals the request's description value — absent or null stores null,
even when a description previously existed. -/
theorem C1_update_merge (store : Store) (id : Nat) (p : UpdateTodo)
    (now : Int) (cur : Row) (hid : id < 2 ^ 128)
    (hv : validateUpdate p = .ok ())
    (hf : store.find? (fun r => r.id == uuidToString id) = some cur) :
    (update_todo store id p now).2 =
      .ok (200, { id := id, title := p.title.getD cur.title,
                  description := p.description,
                  completed := p.completed.getD cur.completed,
                  created_at := cur.created_at, updated_at := now }) ∧
    (update_todo store id p now).1.find? (fun r => r.id == uuidToString id) =
      some { cur with title := p.title.getD cur.title,
                      description := p.description,
                      completed := p.completed.getD cur.completed,
                      updated_at := now } := by
  have heq := update_todo_success store id p now cur hid hv hf
  constructor
  · rw [heq]
  · rw [heq]
    rw [find?_map_eq store _ _
      (updater_pres_key (uuidToString id) (p.title.getD cur.title)
        p.description (p.completed.getD cur.completed) now),
      hf, Option.map_some']
    have hb := List.find?_some hf
    have hcurid : cur.id = uuidToString id := eq_of_beq hb
    simp [hcurid]

/-- Claim C1 witness: updating with only `completed` set keeps the title,
clears the previously present description, and stores the new flag. -/
theorem C1_update_merge_witness :
    (update_todo
      [({ id := "00000000-0000-0000-0000-000000000000", title := "x",
          description := some "d", completed := false, created_at := 1,
          updated_at := 1 } : Row)] 0
      { title := none, description := none, completed := some true } 5).2 =
      .ok (200, { id := 0, title := "x", description := none,
                  completed := true, created_at := 1, updated_at := 5 }) := by
  have h := C1_update_merge
    [({ id := "00000000-0000-0000-0000-000000000000", title := "x",
        description := some "d", completed := false, created_at := 1,
        updated_at := 1 } : Row)] 0
    { title := none, description := none, completed := some true } 5
    ({ id := "00000000-0000-0000-0000-000000000000", title := "x",
       description := some "d", completed := false, created_at := 1,
       updated_at := 1 } : Row)
    (by decide) rfl rfl
  exact h.1

/-- Claim C3: a successful Create returns 201, a Todo with completed = false
and created_at = updated_at (the same timestamp), whose id is the freshly
generated one (absent from the pre-state); two consecutive successful
Creates return distinct ids. -/
theorem C3_create_fresh (store : Store) (p1 p2 : CreateTodo)
    (id1 id2 : Nat) (now1 now2 : Int) (s1 s2 : Store) (st1 st2 : Nat)
    (t1 t2 : Todo) (hid1 : id1 < 2 ^ 128) (hid2 : id2 < 2 ^ 128)
    (h1 : create_todo store p1 id1 now1 = (s1, .ok (st1, t1)))
    (h2 : create_todo s1 p2 id2 now2 = (s2, .ok (st2, t2))) :
    st1 = 201 ∧ t1.completed = false ∧ t1.created_at = now1 ∧
    t1.updated_at = now1 ∧ t1.id = id1 ∧
    (∀ r ∈ store, (r.id == uuidToString id1) = false) ∧
    t2.id = id2 ∧ t1.id ≠ t2.id := by
  obtain ⟨hv1, hfr1, hs1, hst1, ht1⟩ :=
    create_todo_success_inv _ _ _ _ _ _ _ hid1 h1
  obtain ⟨hv2, hfr2, hs2, hst2, ht2⟩ :=
    create_todo_success_inv _ _ _ _ _ _ _ hid2 h2
  refine ⟨hst1, by rw [ht1], by rw [ht1], by rw [ht1], by rw [ht1], ?_,
    by rw [ht2], ?_⟩
  · intro r hr
    have hall := List.any_eq_false.mp hfr1 r hr
    exact Bool.not_eq_true _ ▸ hall
  · rw [ht1, ht2]
    intro hee
    have hall2 := List.any_eq_false.mp hfr2
    have hrow1mem : ({ id := uuidToString id1, title := p1.title,
                       description := p1.description, completed := false,
                       created_at := now1, updated_at := now1 } : Row) ∈ s1 := by
      rw [hs1]; simp
    refine hall2 _ hrow1mem ?_
    show (uuidToString id1 == uuidToString id2) = true
    have : id1 = id2 := hee
    rw [this]
    exact beq_self_eq_true _

/-- Claim C3 witness: two consecutive Creates on an empty table succeed with
completed = false, equal timestamps and distinct ids. -/
theorem C3_create_fresh_witness :
    ({ id := 0, title := "a", description := none, completed := false,
       created_at := 0, updated_at := 0 } : Todo).completed = false ∧
    ({ id := 0, title := "a", description := none, completed := false,
       created_at := 0, updated_at := 0 } : Todo).id ≠
      ({ id := 1, title := "a", description := none, completed := false,
         created_at := 0, updated_at := 0 } : Todo).id := by
  have h := C3_create_fresh [] { title := "a", description := none }
    { title := "a", description := none } 0 1 0 0
    [({ id := "00000000-0000-0000-0000-000000000000", title := "a",
        description := none, completed := false, created_at := 0,
        updated_at := 0 } : Row)]
    [({ id := "00000000-0000-0000-0000-000000000000", title := "a",
        description := none, completed := false, created_at := 0,
        updated_at := 0 } : Row),
     ({ id := "00000000-0000-0000-0000-000000000001", title := "a",
        description := none, completed := false, created_at := 0,
        updated_at := 0 } : Row)] 201 201
    ({ id := 0, title := "a", description := none, completed := false,
       created_at := 0, updated_at := 0 } : Todo)
    ({ id := 1, title := "a", description := none, completed := false,
       created_at := 0, updated_at := 0 } : Todo)
    (by decide) (by decide) rfl rfl
  exact ⟨h.2.1, h.2.2.2.2.2.2.2⟩

/-- Claim C5: a Create or Update request that fails validation returns the
ValidationFailed error — HTTP 400 with a body carrying the field-level
messages — and the table is not touched. -/
theorem C5_validation_no_write (store : Store) (pc : CreateTodo)
    (pu : UpdateTodo) (cid uid : Nat) (nowc nowu : Int)
    (ec eu : List (String × String))
    (hc : validateCreate pc = .error ec)
    (hu : validateUpdate pu = .error eu) :
    create_todo store pc cid nowc = (store, .error (.ValidationError ec)) ∧
    update_todo store uid pu nowu = (store, .error (.ValidationError eu)) ∧
    into_response (.ValidationError ec) =
      (400, "Input validation failed: " ++ renderValidationErrors ec) ∧
    into_response (.ValidationError eu) =
      (400, "Input validation failed: " ++ renderValidationErrors eu) := by
  refine ⟨?_, ?_, rfl, rfl⟩
  · unfold create_todo; rw [hc]
  · unfold update_todo; rw [hu]

/-- Claim C5 witness: POST /todos with an empty title yields the title
validation error, a 400 response, and no row is created. -/
theorem C5_validation_no_write_witness :
    validateCreate { title := "", description := none } =
      .error [("title", "Title cannot be empty")] ∧
    create_todo [] { title := "", description := none } 0 0 =
      ([], .error (.ValidationError [("title", "Title cannot be empty")])) ∧
    (into_response
      (.ValidationError [("title", "Title cannot be empty")])).1 = 400 := by
  have h := C5_validation_no_write [] { title := "", description := none }
    { title := some "", description := none, completed := none } 0 0 0 0
    [("title", "Title cannot be empty")] [("title", "Title cannot be empty")]
    rfl rfl
  exact ⟨rfl, h.1, congrArg Prod.fst h.2.2.1⟩

/-- Claim C7: a successful Update preserves every row's id and created_at,
returns the target row with its created_at intact, and sets updated_at to
the fresh timestamp, which is ≥ the previous one when the clock did not go
backwards and strictly greater when it strictly advanced. -/
theorem C7_update_frame (store : Store) (id : Nat) (p : UpdateTodo)
    (now : Int) (cur : Row) (s' : Store) (st : Nat) (t : Todo)
    (hid : id < 2 ^ 128)
    (hf : store.find? (fun r => r.id == uuidToString id) = some cur)
    (h : update_todo store id p now = (s', .ok (st, t))) :
    st = 200 ∧ t.id = id ∧ t.created_at = cur.created_at ∧
    t.updated_at = now ∧
    s'.map (fun r => (r.id, r.created_at)) =
      store.map (fun r => (r.id, r.created_at)) ∧
    (cur.updated_at ≤ now → cur.updated_at ≤ t.updated_at) ∧
    (cur.updated_at < now → cur.updated_at < t.updated_at) := by
  obtain ⟨hv, hs, hst, ht⟩ :=
    update_todo_success_inv store id p now cur s' st t hid hf h
  refine ⟨hst, by rw [ht], by rw [ht], by rw [ht], ?_, ?_, ?_⟩
  · rw [hs, List.map_map]
    refine List.map_congr_left ?_
    intro r _
    by_cases hb : (r.id == uuidToString id) = true <;> simp [Function.comp, hb]
  · intro hle; rw [ht]; exact hle
  · intro hlt; rw [ht]; exact hlt

/-- Claim C7 witness: a concrete successful Update keeps id and created_at
and advances updated_at from 1 to 5. -/
theorem C7_update_frame_witness :
    ({ id := 0, title := "x", description := none, completed := true,
       created_at := 1, updated_at := 5 } : Todo).created_at = (1 : Int) ∧
    (1 : Int) ≤ ({ id := 0, title := "x", description := none,
                   completed := true, created_at := 1,
                   updated_at := 5 } : Todo).updated_at := by
  have h := C7_update_frame
    [({ id := "00000000-0000-0000-0000-000000000000", title := "x",
        description := some "d", completed := false, created_at := 1,
        updated_at := 1 } : Row)] 0
    { title := none, description := none, completed := some true } 5
    ({ id := "00000000-0000-0000-0000-000000000000", title := "x",
       description := some "d", completed := false, created_at := 1,
       updated_at := 1 } : Row)
    [({ id := "00000000-0000-0000-0000-000000000000", title := "x",
        description := none, completed := true, created_at := 1,
        updated_at := 5 } : Row)] 200
    ({ id := 0, title := "x", description := none, completed := true,
       created_at := 1, updated_at := 5 } : Todo)
    (by decide) rfl rfl
  exact ⟨h.2.2.1, h.2.2.2.2.2.1 (by decide)⟩

/-- Claim C8: Delete answers NotFound (HTTP 404) exactly when zero rows were
affected — i.e. no row carries the id — and 204 otherwise; the table keeps
exactly the non-matching rows, so a repeated Delete of the same id answers
404 every time. -/
theorem C8_delete_semantics (store : Store) (id : Nat) :
    ((delete_todo store id).2 = .error .NotFound ↔
      store.countP (fun r => r.id == uuidToString id) = 0) ∧
    ((delete_todo store id).2 = .ok 204 ↔
      0 < store.countP (fun r => r.id == uuidToString id)) ∧
    (store.countP (fun r => r.id == uuidToString id) = 0 ↔
      store.all (fun r => !(r.id == uuidToString id)) = true) ∧
    (delete_todo store id).1 =
      store.filter (fun r => !(r.id == uuidToString id)) ∧
    (into_response .NotFound).1 = 404 ∧
    (delete_todo (delete_todo store id).1 id).2 = .error .NotFound := by
  have h1 : ((delete_todo store id).2 = .error .NotFound ↔
      store.countP (fun r => r.id == uuidToString id) = 0) := by
    unfold delete_todo
    dsimp only
    split
    · rename_i hcc; simp [hcc]
    · rename_i hcc; simp [hcc]
  have h2 : ((delete_todo store id).2 = .ok 204 ↔
      0 < store.countP (fun r => r.id == uuidToString id)) := by
    unfold delete_todo
    dsimp only
    split
    · rename_i hcc; simp [hcc]
    · rename_i hcc; simp [Nat.pos_of_ne_zero hcc]
  have h3 : (store.countP (fun r => r.id == uuidToString id) = 0 ↔
      store.all (fun r => !(r.id == uuidToString id)) = true) := by
    rw [List.countP_eq_zero, List.all_eq_true]
    constructor
    · intro hall r hr; simpa using hall r hr
    · intro hall r hr; simpa using hall r hr
  have h6 : (delete_todo (delete_todo store id).1 id).2 =
      .error .NotFound := by
    rw [delete_todo_state store id]
    unfold delete_todo
    dsimp only
    rw [if_pos (countP_filter_not store _)]
  exact ⟨h1, h2, h3, delete_todo_state store id, rfl, h6⟩

/-- Claim C2 counterexample: Create persists the id in the hyphenated
`Uuid::to_string` form — 36 characters containing the separator `-`, which
is not a lowercase-hex digit — while the wire form (`uuid::serde::simple`)
is the 32-character no-separator string, so wire and storage do not share
one no-separator hex encoding. -/
theorem C2_counterexample :
    (create_todo [] { title := "a", description := none } 0 0).1 =
      [({ id := "00000000-0000-0000-0000-000000000000", title := "a",
          description := none, completed := false, created_at := 0,
          updated_at := 0 } : Row)] ∧
    '-' ∈ "00000000-0000-0000-0000-000000000000".data ∧
    isLowerHexDigit '-' = false ∧
    uuidSimple 0 = "00000000000000000000000000000000" := by
  refine ⟨?_, ?_, ?_, ?_⟩ <;> decide

/-- Claim C2 (amended): the wire serialization of an id is the fixed-length
32-character lowercase-hex no-separator form, but the value crossing the
persistence boundary is `Uuid::to_string`, the 36-character hyphenated
lowercase-hex form: Create writes it to the id column and Delete (like the
other by-id statements) compares the id column against it. -/
theorem C2_wire_and_storage_encoding (u : Nat) (store : Store)
    (p : CreateTodo) (now : Int) (hu : u < 2 ^ 128)
    (hv : validateCreate p = .ok ())
    (hfresh : store.any (fun r => r.id == uuidToString u) = false) :
    (todoWireId { id := u, title := p.title, description := p.description,
                  completed := false, created_at := now,
                  updated_at := now }).length = 32 ∧
    (∀ c ∈ (uuidSimple u).data, isLowerHexDigit c = true) ∧
    (uuidToString u).length = 36 ∧
    '-' ∈ (uuidToString u).data ∧
    (create_todo store p u now).1 =
      store ++ [{ id := uuidToString u, title := p.title,
                  description := p.description, completed := false,
                  created_at := now, updated_at := now }] ∧
    (delete_todo store u).1 =
      store.filter (fun r => !(r.id == uuidToString u)) := by
  refine ⟨?_, ?_, ?_, ?_, ?_, delete_todo_state store u⟩
  · show (uuidSimple u).length = 32
    show (hexChars 32 u).length = 32
    exact hexChars_length 32 u
  · exact hexChars_isLowerHex 32 u
  · show (uuidHyphChars u).length = 36
    exact uuidHyphChars_length u
  · show '-' ∈ uuidHyphChars u
    rw [uuidHyphChars_assoc]
    simp
  · rw [create_todo_success store p u now hu hv hfresh]

/-- Claim C2 witness: the amended encoding facts at a concrete id. -/
theorem C2_wire_and_storage_encoding_witness :
    (uuidToString 0).length = 36 ∧
    '-' ∈ (uuidToString 0).data ∧
    (create_todo [] { title := "a", description := none } 0 0).1 =
      [] ++ [{ id := uuidToString 0, title := "a", description := none,
               completed := false, created_at := 0, updated_at := 0 }] := by
  have h := C2_wire_and_storage_encoding 0 []
    { title := "a", description := none } 0 (by decide) rfl rfl
  exact ⟨h.2.2.1, h.2.2.2.1, h.2.2.2.2.1⟩

/-- Claim C4 counterexample: the whitespace-only title of one space passes
both the Create and the Update validation, because the only rule is
`length(min = 1)` with no trimming. -/
theorem C4_counterexample :
    validateCreate { title := " ", description := none } = .ok () ∧
    validateUpdate { title := some " ", description := none,
                     completed := none } = .ok () ∧
    " ".data = [' '] := by
  exact ⟨rfl, rfl, rfl⟩

/-- Claim C4 (amended): validation passes exactly when the title has at
least one character — Create always checks it, Update only when a title is
present — so an empty title never passes, but a whitespace-only title does. -/
theorem C4_validation_length_only (p : CreateTodo) (q : UpdateTodo) :
    (validateCreate p = .ok () ↔ 1 ≤ p.title.length) ∧
    (validateUpdate q = .ok () ↔
      (match q.title with
       | some t => 1 ≤ t.length
       | none => True)) := by
  constructor
  · unfold validateCreate
    split
    · rename_i h; simp [h]
    · rename_i h; simp [h]
  · cases htq : q.title with
    | none => simp [validateUpdate, htq]
    | some tt =>
      simp only [validateUpdate, htq]
      split
      · rename_i h; simp [h]
      · rename_i h; simp [h]

/-- Claim C6: the record returned by a successful Create is returned
verbatim, with status 200, by a later Get-by-id, across any sequence of
requests none of which mutates that id. -/
theorem C6_create_then_get (store : Store) (p : CreateTodo) (fid : Nat)
    (now : Int) (s' : Store) (st : Nat) (t : Todo) (ops : List OpR)
    (hid : fid < 2 ^ 128)
    (hc : create_todo store p fid now = (s', .ok (st, t)))
    (hops : ∀ op ∈ ops, ¬ touches fid op) :
    get_todo_by_id (applyTrace s' ops) fid = .ok (200, t) := by
  obtain ⟨hv, hfresh, hs, hst, ht⟩ :=
    create_todo_success_inv _ _ _ _ _ _ _ hid hc
  have hfind : (applyTrace s' ops).find? (fun r => r.id == uuidToString fid) =
      s'.find? (fun r => r.id == uuidToString fid) :=
    applyTrace_find?_pres ops s' fid hops
  have hnone : store.find? (fun r => r.id == uuidToString fid) = none := by
    rw [List.find?_eq_none]
    intro r hr
    exact List.any_eq_false.mp hfresh r hr
  have hfind2 : s'.find? (fun r => r.id == uuidToString fid) =
      some ({ id := uuidToString fid, title := p.title,
              description := p.description, completed := false,
              created_at := now, updated_at := now } : Row) := by
    rw [hs, List.find?_append, hnone]
    simp [List.find?]
  unfold get_todo_by_id
  dsimp only
  rw [hfind, hfind2]
  dsimp only
  rw [parseUuid_uuidToString fid hid]
  dsimp only
  rw [ht]

/-- Claim C6 witness: Create on an empty table, then a Delete of a different
id, then Get-by-id returns the created record with status 200. -/
theorem C6_create_then_get_witness :
    get_todo_by_id
      (applyTrace
        [({ id := "00000000-0000-0000-0000-000000000000", title := "a",
            description := none, completed := false, created_at := 0,
            updated_at := 0 } : Row)]
        [OpR.delete 1]) 0 =
      .ok (200, { id := 0, title := "a", description := none,
                  completed := false, created_at := 0, updated_at := 0 }) := by
  exact C6_create_then_get [] { title := "a", description := none } 0 0
    [({ id := "00000000-0000-0000-0000-000000000000", title := "a",
        description := none, completed := false, created_at := 0,
        updated_at := 0 } : Row)] 201
    ({ id := 0, title := "a", description := none, completed := false,
       created_at := 0, updated_at := 0 } : Todo)
    [OpR.delete 1] (by decide) rfl (by decide)

/-- Claim C9 counterexample: a path segment that is not a UUID is answered
with HTTP 400 (the framework's path-extractor rejection) on GET, PUT and
DELETE of /todos/id, not with 500. -/
theorem C9_counterexample :
    parseUuid "not-a-uuid" = none ∧
    routeGetTodoById [] "not-a-uuid" = 400 ∧
    routeUpdateTodo [] "not-a-uuid"
      { title := none, description := none, completed := none } 0 = 400 ∧
    routeDeleteTodo [] "not-a-uuid" = 400 ∧
    (routeGetTodoById [] "not-a-uuid" == 500) = false := by
  exact ⟨rfl, rfl, rfl, rfl, rfl⟩

/-- Claim C9 (amended): a /todos/id request whose path segment fails to
decode as an identifier is rejected with status 400 by the framework's Path
extractor before any handler runs; the 500 identifier-decode mapping
(`AppError::UuidParseError`) exists but is reached only for identifiers read
back from storage. -/
theorem C9_path_decode_400 (store : Store) (seg : String) (p : UpdateTodo)
    (now : Int) (hseg : parseUuid seg = none) :
    routeGetTodoById store seg = 400 ∧
    routeUpdateTodo store seg p now = 400 ∧
    routeDeleteTodo store seg = 400 ∧
    (into_response .UuidParseError).1 = 500 := by
  refine ⟨?_, ?_, ?_, rfl⟩ <;>
    simp [routeGetTodoById, routeUpdateTodo, routeDeleteTodo, hseg]

/-- Claim C9 witness: the amended statement at a concrete malformed
segment. -/
theorem C9_path_decode_400_witness :
    routeGetTodoById [] "zzz" = 400 ∧
    routeUpdateTodo [] "zzz"
      { title := none, description := none, completed := none } 0 = 400 ∧
    routeDeleteTodo [] "zzz" = 400 ∧
    (into_response .UuidParseError).1 = 500 :=
  C9_path_decode_400 [] "zzz"
    { title := none, description := none, completed := none } 0 rfl

/-- Claim C10: if any stored row's id column fails to parse as a UUID,
GET /todos fails as a whole with the 500 identifier-decode error and
returns no todos at all. -/
theorem C10_get_todos_malformed (store : Store) (r : Row)
    (hr : r ∈ store) (hbad : parseUuid r.id = none) :
    get_todos store = .error .UuidParseError ∧
    into_response .UuidParseError = (500, "Error processing identifier.") := by
  refine ⟨?_, rfl⟩
  unfold get_todos
  refine rowsToTodos_error _ ⟨r, ?_, hbad⟩
  exact ((List.perm_insertionSort
    (fun a b : Row => b.created_at ≤ a.created_at) store).mem_iff).mpr hr

/-- Claim C10 witness: one malformed row makes GET /todos fail with the
identifier-decode error. -/
theorem C10_get_todos_malformed_witness :
    get_todos [({ id := "bad", title := "t", description := none,
                  completed := false, created_at := 0,
                  updated_at := 0 } : Row)] = .error .UuidParseError := by
  exact (C10_get_todos_malformed _
    ({ id := "bad", title := "t", description := none, completed := false,
       created_at := 0, updated_at := 0 } : Row) (by simp) rfl).1

end TodoApi
